import Mathlib

/-!
Shallow embedding of the scd30-interface driver (Rust) in Lean 4.

Bytes are modelled as `Nat` values below 256; u16 values as `Nat` below
65536.  Fallible Rust functions returning `Result<T, E>` become
`Except E T`; slice indexing that can panic in Rust is modelled with
`List.get?`, so a whole operation that could panic returns
`Option (Except E T)`, `none` standing for the panic.  `f32` values are
represented by their IEEE-754 bit patterns (a `Nat` below 2^32); the
function `bitsToRat` gives the exact rational value of a finite float.
-/

deriving instance DecidableEq for Except

namespace Scd30

/-- Data-handling errors, from `src/error.rs` (`DataError`). -/
inductive DataError where
  | ValueOutOfRange (parameter : String) (min : Nat) (max : Nat) (unit : String)
  | UseDefaultPressure
  | CrcFailed
  | ReceivedBufferWrongSize
  | UnexpectedValueReceived (parameter : String) (expected : String) (actual : Nat)
deriving DecidableEq, Repr

/-- Top-level driver errors, from `src/error.rs` (`Scd30Error`).  The
transport-error variant (`I2cError`) is opaque and never produced by the
pure frame-construction code modelled here, so it is omitted. -/
inductive Scd30Error where
  | DataError (e : DataError)
  | SentDataToBig
deriving DecidableEq, Repr

/-- `INITIAL` constant of `src/util.rs`. -/
def INITIAL : Nat := 0xFF

/-- `XOR` constant of `src/util.rs` (the CRC polynomial). -/
def XOR : Nat := 0x31

/-- One round of the inner loop of `compute_crc8` in `src/util.rs`:
if the high bit of the 8-bit accumulator is set, shift left and xor with
the polynomial, else just shift left (u8 arithmetic, hence `% 256`). -/
def crc8Round (crc : Nat) : Nat :=
  if 128 ≤ crc % 256 then (crc * 2) % 256 ^^^ XOR else (crc * 2) % 256

/-- `n` iterations of `crc8Round`. -/
def crc8Rounds : Nat → Nat → Nat
  | 0, crc => crc
  | n + 1, crc => crc8Rounds n (crc8Round crc)

/-- `compute_crc8` from `src/util.rs`: CRC-8/NRSC-5, poly 0x31, init 0xFF,
no reflection, no final xor.  For each byte: xor it into the accumulator,
then run 8 shift rounds. -/
def compute_crc8 (data : List Nat) : Nat :=
  data.foldl (fun crc byte => crc8Rounds 8 (crc ^^^ byte)) INITIAL

/-- `crc8_matches` from `src/util.rs`. -/
def crc8_matches (data : List Nat) (crc : Nat) : Bool :=
  compute_crc8 data == crc

/-- The chunk scan of `check_deserialization` in `src/util.rs`:
`data.chunks(3).any(|chunk| !crc8_matches(&chunk[..2], chunk[2]))`.
`some b` means the scan finished with answer `b`; `none` models the panic
Rust would raise indexing `chunk[2]` (or slicing `chunk[..2]`) on a
trailing chunk shorter than 3 bytes.  `any` short-circuits, as in Rust. -/
def checkWords : List Nat → Option Bool
  | [] => some false
  | a :: b :: c :: rest =>
      if crc8_matches [a, b] c then checkWords rest else some true
  | _ => none

/-- `check_deserialization` from `src/util.rs`: reject a buffer whose
length differs from `expected_len`, then reject it if any 3-byte word
fails CRC verification.  `none` models a Rust panic (unreachable for the
lengths the driver uses, see `checkWords`). -/
def check_deserialization (data : List Nat) (expected_len : Nat) :
    Option (Except DataError Unit) :=
  if data.length ≠ expected_len then some (.error .ReceivedBufferWrongSize)
  else
    match checkWords data with
    | none => none
    | some true => some (.error .CrcFailed)
    | some false => some (.ok ())

/-- Specification-side predicate: every consecutive 3-byte word of the
buffer has its third byte equal to the CRC-8 of its first two bytes.
Agrees with the scan `checkWords` on buffers whose length is a multiple
of 3 (the only lengths the driver uses). -/
def wordsValid : List Nat → Bool
  | a :: b :: c :: rest => crc8_matches [a, b] c && wordsValid rest
  | _ => true

/-- Big-endian byte representation of a u16 (`u16::to_be_bytes` in Rust);
total on `Nat`, agreeing with Rust for values below 65536. -/
def u16ToBeBytes (v : Nat) : List Nat :=
  [v / 256 % 256, v % 256]

/-- `BigEndian::read_u16` over the first two bytes of a buffer. -/
def readU16 (hi lo : Nat) : Nat :=
  hi * 256 + lo

/-- `BigEndian::read_u32` over four bytes. -/
def readU32 (b0 b1 b2 b3 : Nat) : Nat :=
  ((b0 * 256 + b1) * 256 + b2) * 256 + b3

/-- `AmbientPressure` from `src/data/ambient_pressure.rs` (wraps a u16). -/
structure AmbientPressure where
  val : Nat
deriving DecidableEq, Repr

/-- `AmbientPressure::to_be_bytes`. -/
def AmbientPressure.to_be_bytes (p : AmbientPressure) : List Nat :=
  u16ToBeBytes p.val

/-- `TryFrom<u16> for AmbientPressure` from `src/data/ambient_pressure.rs`:
0 is rejected with `UseDefaultPressure`; values outside 700..=1400 with
`ValueOutOfRange`; the rest are accepted. -/
def AmbientPressure.try_from (pressure : Nat) : Except DataError AmbientPressure :=
  if pressure = 0 then .error .UseDefaultPressure
  else if pressure < 700 ∨ 1400 < pressure then
    .error (.ValueOutOfRange "Ambient pressure compensation" 700 1400 "mBar")
  else .ok ⟨pressure⟩

/-- `AmbientPressureCompensation` from `src/data/ambient_pressure.rs`. -/
inductive AmbientPressureCompensation where
  | DefaultPressure
  | CompensationPressure (p : AmbientPressure)
deriving DecidableEq, Repr

/-- `AmbientPressureCompensation::to_be_bytes`. -/
def AmbientPressureCompensation.to_be_bytes : AmbientPressureCompensation → List Nat
  | .DefaultPressure => [0x00, 0x00]
  | .CompensationPressure p => p.to_be_bytes

/-- `MeasurementInterval` from `src/data/measurement_interval.rs` (wraps a u16). -/
structure MeasurementInterval where
  val : Nat
deriving DecidableEq, Repr

/-- `MeasurementInterval::to_be_bytes`. -/
def MeasurementInterval.to_be_bytes (m : MeasurementInterval) : List Nat :=
  u16ToBeBytes m.val

/-- `TryFrom<u16> for MeasurementInterval`: range 2..=1800 s. -/
def MeasurementInterval.try_from (interval : Nat) : Except DataError MeasurementInterval :=
  if interval < 2 ∨ 1800 < interval then
    .error (.ValueOutOfRange "Measurement interval" 2 1800 "s")
  else .ok ⟨interval⟩

/-- `TryFrom<&[u8]> for MeasurementInterval`: shared check, then read the
big-endian u16 from the first two bytes.  No range re-validation. -/
def MeasurementInterval.try_from_bytes (data : List Nat) :
    Option (Except DataError MeasurementInterval) :=
  match check_deserialization data 3 with
  | none => none
  | some (.error e) => some (.error e)
  | some (.ok ()) => do
      let hi ← data.get? 0
      let lo ← data.get? 1
      some (.ok ⟨readU16 hi lo⟩)

/-- `ForcedRecalibrationValue` from `src/data/forced_recalibration_value.rs`. -/
structure ForcedRecalibrationValue where
  val : Nat
deriving DecidableEq, Repr

/-- `ForcedRecalibrationValue::to_be_bytes`. -/
def ForcedRecalibrationValue.to_be_bytes (f : ForcedRecalibrationValue) : List Nat :=
  u16ToBeBytes f.val

/-- `TryFrom<u16> for ForcedRecalibrationValue`: range 400..=2000 ppm. -/
def ForcedRecalibrationValue.try_from (frc : Nat) : Except DataError ForcedRecalibrationValue :=
  if frc < 400 ∨ 2000 < frc then
    .error (.ValueOutOfRange "Forced recalibration value" 400 2000 "ppm")
  else .ok ⟨frc⟩

/-- `TryFrom<&[u8]> for ForcedRecalibrationValue`.  No range re-validation. -/
def ForcedRecalibrationValue.try_from_bytes (data : List Nat) :
    Option (Except DataError ForcedRecalibrationValue) :=
  match check_deserialization data 3 with
  | none => none
  | some (.error e) => some (.error e)
  | some (.ok ()) => do
      let hi ← data.get? 0
      let lo ← data.get? 1
      some (.ok ⟨readU16 hi lo⟩)

/-- `TemperatureOffset` from `src/data/temperature_offset.rs` (wraps the
scaled u16, value x 100). -/
structure TemperatureOffset where
  val : Nat
deriving DecidableEq, Repr

/-- `TemperatureOffset::to_be_bytes`. -/
def TemperatureOffset.to_be_bytes (t : TemperatureOffset) : List Nat :=
  u16ToBeBytes t.val

/-- `TryFrom<&[u8]> for TemperatureOffset`. -/
def TemperatureOffset.try_from_bytes (data : List Nat) :
    Option (Except DataError TemperatureOffset) :=
  match check_deserialization data 3 with
  | none => none
  | some (.error e) => some (.error e)
  | some (.ok ()) => do
      let hi ← data.get? 0
      let lo ← data.get? 1
      some (.ok ⟨readU16 hi lo⟩)

/-- `AltitudeCompensation` from `src/data/altitude_compensation.rs`. -/
structure AltitudeCompensation where
  val : Nat
deriving DecidableEq, Repr

/-- `AltitudeCompensation::to_be_bytes`. -/
def AltitudeCompensation.to_be_bytes (a : AltitudeCompensation) : List Nat :=
  u16ToBeBytes a.val

/-- `From<u16> for AltitudeCompensation` (infallible, full u16 range). -/
def AltitudeCompensation.from_u16 (altitude : Nat) : AltitudeCompensation :=
  ⟨altitude⟩

/-- `TryFrom<&[u8]> for AltitudeCompensation`. -/
def AltitudeCompensation.try_from_bytes (data : List Nat) :
    Option (Except DataError AltitudeCompensation) :=
  match check_deserialization data 3 with
  | none => none
  | some (.error e) => some (.error e)
  | some (.ok ()) => do
      let hi ← data.get? 0
      let lo ← data.get? 1
      some (.ok ⟨readU16 hi lo⟩)

/-- `AutomaticSelfCalibration` from `src/data/automatic_self_calibration.rs`:
`Active = 1`, `Inactive = 0`. -/
inductive AutomaticSelfCalibration where
  | Active
  | Inactive
deriving DecidableEq, Repr

/-- The explicit discriminant of `AutomaticSelfCalibration` (`*self as u16`). -/
def AutomaticSelfCalibration.toU16 : AutomaticSelfCalibration → Nat
  | .Active => 1
  | .Inactive => 0

/-- `AutomaticSelfCalibration::to_be_bytes`. -/
def AutomaticSelfCalibration.to_be_bytes (a : AutomaticSelfCalibration) : List Nat :=
  u16ToBeBytes a.toU16

/-- `TryFrom<&[u8]> for AutomaticSelfCalibration`: shared check, then match
on `data[1]` only (1 is Active, 0 is Inactive, anything else is an
`UnexpectedValueReceived` carrying the byte). -/
def AutomaticSelfCalibration.try_from_bytes (data : List Nat) :
    Option (Except DataError AutomaticSelfCalibration) :=
  match check_deserialization data 3 with
  | none => none
  | some (.error e) => some (.error e)
  | some (.ok ()) => do
      let v ← data.get? 1
      match v with
      | 1 => some (.ok .Active)
      | 0 => some (.ok .Inactive)
      | v =>
          some (.error (.UnexpectedValueReceived "Automatic self-calibration" "0 or 1" v))

/-- `DataStatus` from `src/data/data_status.rs`. -/
inductive DataStatus where
  | Ready
  | NotReady
deriving DecidableEq, Repr

/-- `TryFrom<&[u8]> for DataStatus`: shared check, then match on `data[1]`
only (0 is NotReady, 1 is Ready, anything else is an
`UnexpectedValueReceived` carrying the byte). -/
def DataStatus.try_from_bytes (data : List Nat) :
    Option (Except DataError DataStatus) :=
  match check_deserialization data 3 with
  | none => none
  | some (.error e) => some (.error e)
  | some (.ok ()) => do
      let v ← data.get? 1
      match v with
      | 0 => some (.ok .NotReady)
      | 1 => some (.ok .Ready)
      | v =>
          some (.error (.UnexpectedValueReceived "Data ready status" "0 or 1" v))

/-- `FirmwareVersion` from `src/data/firmware_version.rs`. -/
structure FirmwareVersion where
  major : Nat
  minor : Nat
deriving DecidableEq, Repr

/-- `TryFrom<&[u8]> for FirmwareVersion`: major is `data[0]`, minor is
`data[1]`; no validation beyond the shared check. -/
def FirmwareVersion.try_from_bytes (data : List Nat) :
    Option (Except DataError FirmwareVersion) :=
  match check_deserialization data 3 with
  | none => none
  | some (.error e) => some (.error e)
  | some (.ok ()) => do
      let major ← data.get? 0
      let minor ← data.get? 1
      some (.ok ⟨major, minor⟩)

/-- `Measurement` from `src/data/measurement.rs`.  The three `f32` fields
are represented by their IEEE-754 bit patterns. -/
structure Measurement where
  co2_concentration : Nat
  temperature : Nat
  humidity : Nat
deriving DecidableEq, Repr

/-- `TryFrom<&[u8]> for Measurement`: shared check at length 18, then each
float's bits are the big-endian concatenation of the data bytes at
offsets 0,1,3,4 (CO2), 6,7,9,10 (temperature) and 12,13,15,16 (humidity),
skipping each word's checksum byte. -/
def Measurement.try_from_bytes (data : List Nat) :
    Option (Except DataError Measurement) :=
  match check_deserialization data 18 with
  | none => none
  | some (.error e) => some (.error e)
  | some (.ok ()) => do
      let d0 ← data.get? 0
      let d1 ← data.get? 1
      let d3 ← data.get? 3
      let d4 ← data.get? 4
      let d6 ← data.get? 6
      let d7 ← data.get? 7
      let d9 ← data.get? 9
      let d10 ← data.get? 10
      let d12 ← data.get? 12
      let d13 ← data.get? 13
      let d15 ← data.get? 15
      let d16 ← data.get? 16
      some (.ok ⟨readU32 d0 d1 d3 d4, readU32 d6 d7 d9 d10, readU32 d12 d13 d15 d16⟩)

/-- Exact rational value of a finite IEEE-754 binary32 number given its
bit pattern (semantics of `f32::from_bits` for finite values; exponent
255 encodes infinities and NaNs, which the driver's claims never touch,
and is mapped to 0 here). -/
def bitsToRat (bits : Nat) : ℚ :=
  let sign : ℚ := if bits / 2 ^ 31 % 2 = 1 then -1 else 1
  let e : Nat := bits / 2 ^ 23 % 256
  let m : Nat := bits % 2 ^ 23
  if e = 0 then sign * (m : ℚ) / 2 ^ 149
  else if e = 255 then 0
  else sign * ((2 ^ 23 + m : Nat) : ℚ) * 2 ^ e / 2 ^ 150

/-- `Command` from `src/command.rs`. -/
inductive Command where
  | TriggerContinuousMeasurement
  | StopContinuousMeasurement
  | SetMeasurementInterval
  | GetDataReady
  | ReadMeasurement
  | ActivateAutomaticSelfCalibration
  | ForcedRecalibrationValue
  | SetTemperatureOffset
  | SetAltitudeCompensation
  | ReadFirmwareVersion
  | SoftReset
deriving DecidableEq, Repr

/-- The explicit 16-bit opcode of each `Command` variant. -/
def Command.opcode : Command → Nat
  | .TriggerContinuousMeasurement => 0x0010
  | .StopContinuousMeasurement => 0x0104
  | .SetMeasurementInterval => 0x4600
  | .GetDataReady => 0x0202
  | .ReadMeasurement => 0x0300
  | .ActivateAutomaticSelfCalibration => 0x5306
  | .ForcedRecalibrationValue => 0x5204
  | .SetTemperatureOffset => 0x5403
  | .SetAltitudeCompensation => 0x5102
  | .ReadFirmwareVersion => 0xD100
  | .SoftReset => 0xD304

/-- `Command::to_be_bytes`. -/
def Command.to_be_bytes (c : Command) : List Nat :=
  u16ToBeBytes c.opcode

/-- `ADDRESS` from `src/interface.rs`. -/
def ADDRESS : Nat := 0x61

/-- `WRITE_FLAG` from `src/interface.rs`. -/
def WRITE_FLAG : Nat := 0x00

/-- `READ_FLAG` from `src/interface.rs`. -/
def READ_FLAG : Nat := 0x01

/-- The address byte the driver's `read` hands to the transport:
`ADDRESS | READ_FLAG`. -/
def read_address : Nat := ADDRESS ||| READ_FLAG

/-- `Scd30::write` from `src/interface.rs`, modelled as a pure function on
its inputs: on success it returns the address byte handed to the
transport (`ADDRESS | WRITE_FLAG`) and the exact bytes written (the
2 opcode bytes, or opcode plus 2 argument bytes plus the CRC-8 of the
argument); when the argument slice's length is not 2 it fails with
`SentDataToBig` before anything reaches the bus, so an error carries no
written bytes. -/
def write (command : Command) (data : Option (List Nat)) :
    Except Scd30Error (Nat × List Nat) :=
  match data with
  | none => .ok (ADDRESS ||| WRITE_FLAG, command.to_be_bytes)
  | some d =>
      if d.length ≠ 2 then .error .SentDataToBig
      else .ok (ADDRESS ||| WRITE_FLAG, command.to_be_bytes ++ d ++ [compute_crc8 d])

/-- `Scd30::trigger_continuous_measurements` (write half) from
`src/interface.rs`: a missing compensation argument is encoded as
`[0, 0]`, a present one through its `to_be_bytes`. -/
def trigger_continuous_measurements
    (pressure_compensation : Option AmbientPressureCompensation) :
    Except Scd30Error (Nat × List Nat) :=
  let data := match pressure_compensation with
    | none => [0x0, 0x0]
    | some pres => pres.to_be_bytes
  write Command.TriggerContinuousMeasurement (some data)

end Scd30

namespace Scd30

theorem crc8_beef : compute_crc8 [0xBE, 0xEF] = 0x92 := by decide

theorem crc8_zero : compute_crc8 [0x00] = 0xAC := by decide

/-- On buffers whose length is a multiple of 3 (all buffers the driver
passes the length check on), the short-circuiting chunk scan agrees with
the all-words-valid predicate and never panics. -/
theorem checkWords_eq : ∀ (data : List Nat), data.length % 3 = 0 →
    checkWords data = some (!(wordsValid data))
  | [], _ => rfl
  | [_], h => by simp at h
  | [_, _], h => by simp at h
  | a :: b :: c :: rest, h => by
      have h' : rest.length % 3 = 0 := by
        simp only [List.length_cons] at h
        omega
      by_cases hc : crc8_matches [a, b] c
      · simp [checkWords, wordsValid, hc, checkWords_eq rest h']
      · simp [checkWords, wordsValid, hc]

/-- If the shared check succeeds, the buffer has the expected length. -/
theorem check_deserialization_ok_length {data : List Nat} {n : Nat}
    (h : check_deserialization data n = some (.ok ())) : data.length = n := by
  by_contra hl
  simp [check_deserialization, hl] at h

/-- A buffer consisting of one word followed by its own CRC always passes
the shared check. -/
theorem check_deserialization_word (h l : Nat) :
    check_deserialization [h, l, compute_crc8 [h, l]] 3 = some (.ok ()) := by
  simp [check_deserialization, checkWords, crc8_matches]

/-- Recomposing the big-endian bytes of a u16 gives the value back. -/
theorem u16_roundtrip (v : Nat) (hv : v < 65536) :
    readU16 (v / 256 % 256) (v % 256) = v := by
  have h : v / 256 < 256 := by omega
  simp [readU16, Nat.mod_eq_of_lt h]
  omega

/-- C1: for every byte buffer and every expected length the driver uses
(3 or 18), `check_deserialization` never panics, returns `Ok` exactly
when the buffer has the expected length and every consecutive 3-byte word
carries the CRC-8 of its two data bytes, returns the
received-buffer-wrong-size error whenever the length differs (for every
buffer, whatever its checksums), and returns the checksum-failed error
when the length matches but some word's checksum byte mismatches; no
other result is possible. -/
theorem c1_check_deserialization_characterization (data : List Nat) (n : Nat)
    (hn : n = 3 ∨ n = 18) :
    (check_deserialization data n).isSome ∧
    (check_deserialization data n = some (.ok ()) ↔
      data.length = n ∧ wordsValid data = true) ∧
    (data.length ≠ n →
      check_deserialization data n = some (.error .ReceivedBufferWrongSize)) ∧
    (data.length = n → wordsValid data = false →
      check_deserialization data n = some (.error .CrcFailed)) := by
  by_cases hl : data.length = n
  · have h3 : data.length % 3 = 0 := by rcases hn with rfl | rfl <;> omega
    have hw := checkWords_eq data h3
    refine ⟨?_, ?_, ?_, ?_⟩
    · cases hv : wordsValid data <;> simp [check_deserialization, hl, hw, hv]
    · cases hv : wordsValid data <;> simp [check_deserialization, hl, hw, hv]
    · intro h
      exact absurd hl h
    · intro _ hv
      simp [check_deserialization, hl, hw, hv]
  · refine ⟨?_, ?_, ?_, ?_⟩
    · simp [check_deserialization, hl]
    · simp [check_deserialization, hl]
    · intro _
      simp [check_deserialization, hl]
    · intro h _
      exact absurd h hl

/-- Witness for C1 at the driver's own sample buffers. -/
theorem c1_witness :
    check_deserialization [0x03, 0x42, 0xF3] 3 = some (.ok ()) ∧
    check_deserialization [0x03, 0x42] 3 = some (.error .ReceivedBufferWrongSize) ∧
    check_deserialization [0x03, 0x42, 0xFF] 3 = some (.error .CrcFailed) := by
  refine ⟨?_, ?_, ?_⟩
  · exact (c1_check_deserialization_characterization [0x03, 0x42, 0xF3] 3
      (Or.inl rfl)).2.1.mpr ⟨by decide, by decide⟩
  · exact (c1_check_deserialization_characterization [0x03, 0x42] 3
      (Or.inl rfl)).2.2.1 (by decide)
  · exact (c1_check_deserialization_characterization [0x03, 0x42, 0xFF] 3
      (Or.inl rfl)).2.2.2 (by decide) (by decide)

/-- C2: a write frame is exactly the 2 big-endian opcode bytes when no
argument is supplied, and exactly opcode plus 2 argument bytes plus the
CRC-8 of the argument (5 bytes total) when a 2-byte argument is supplied;
TriggerContinuousMeasurement with ambient pressure 800 mBar produces
[0x00,0x10,0x03,0x20,0x2A]; an argument slice of any other length fails
with `SentDataToBig` and nothing is handed to the bus (the model's error
carries no written bytes). -/
theorem c2_write_frames :
    (∀ c : Command, write c none = .ok (ADDRESS ||| WRITE_FLAG, c.to_be_bytes) ∧
      (c.to_be_bytes).length = 2) ∧
    (∀ (c : Command) (d : List Nat), d.length = 2 →
      write c (some d) =
        .ok (ADDRESS ||| WRITE_FLAG, c.to_be_bytes ++ d ++ [compute_crc8 d]) ∧
      (c.to_be_bytes ++ d ++ [compute_crc8 d]).length = 5) ∧
    (AmbientPressure.try_from 800 = .ok ⟨800⟩ ∧
      trigger_continuous_measurements
        (some (.CompensationPressure ⟨800⟩)) =
        .ok (ADDRESS ||| WRITE_FLAG, [0x00, 0x10, 0x03, 0x20, 0x2A])) ∧
    (∀ (c : Command) (d : List Nat), d.length ≠ 2 →
      write c (some d) = .error .SentDataToBig) := by
  refine ⟨?_, ?_, ⟨by decide, by decide⟩, ?_⟩
  · intro c
    exact ⟨rfl, rfl⟩
  · intro c d hd
    refine ⟨by simp [write, hd], ?_⟩
    simp [Command.to_be_bytes, u16ToBeBytes, hd]
  · intro c d hd
    simp [write, hd]

/-- Witness for C2 at concrete commands and arguments. -/
theorem c2_witness :
    write Command.SetMeasurementInterval (some [0x00, 0x02]) =
      .ok (0x61, [0x46, 0x00, 0x00, 0x02, 0xE3]) ∧
    write Command.SoftReset none = .ok (0x61, [0xD3, 0x04]) ∧
    write Command.SetTemperatureOffset (some [0x00, 0x00, 0x00, 0x00]) =
      .error .SentDataToBig := by
  refine ⟨?_, ?_, ?_⟩
  · exact ((c2_write_frames.2.1 Command.SetMeasurementInterval [0x00, 0x02]
      (by decide)).1).trans (by decide)
  · exact ((c2_write_frames.1 Command.SoftReset).1).trans (by decide)
  · exact c2_write_frames.2.2.2 Command.SetTemperatureOffset
      [0x00, 0x00, 0x00, 0x00] (by decide)

/-- C4 counterexample: the claim says every write goes out at an address
byte with low bit 0, differing from the read address byte in that bit.
In the code `ADDRESS = 0x61` already has its low bit set, so
`ADDRESS | WRITE_FLAG = ADDRESS | READ_FLAG = 0x61`: this concrete write
transaction is issued at address byte 0x61, whose low bit is 1, equal to
the read address byte. -/
theorem c4_counterexample :
    write Command.SoftReset none = .ok (0x61, [0xD3, 0x04]) ∧
    0x61 % 2 = 1 ∧
    ADDRESS ||| WRITE_FLAG = ADDRESS ||| READ_FLAG ∧
    read_address = 0x61 := by
  decide

/-- C4 amended: every bus transaction targets the fixed device byte 0x61;
the driver ORs `WRITE_FLAG = 0` resp. `READ_FLAG = 1` into `ADDRESS`, but
since `ADDRESS = 0x61` already has its low bit set, the address byte
handed to the transport is 0x61 (low bit 1) for writes and reads alike:
the two address bytes are identical, not distinguished by the low bit. -/
theorem c4_address_amended :
    (∀ (c : Command) (d : Option (List Nat)) (r : Nat × List Nat),
      write c d = .ok r → r.1 = ADDRESS ||| WRITE_FLAG ∧ r.1 = 0x61 ∧ r.1 % 2 = 1) ∧
    read_address = 0x61 ∧ ADDRESS ||| WRITE_FLAG = ADDRESS ||| READ_FLAG := by
  refine ⟨?_, by decide, by decide⟩
  intro c d r h
  cases d with
  | none =>
      simp only [write, Except.ok.injEq] at h
      subst h
      exact ⟨rfl, rfl, show (ADDRESS ||| WRITE_FLAG) % 2 = 1 by decide⟩
  | some dd =>
      by_cases hl : dd.length = 2
      · simp only [write, hl, ne_eq, not_true_eq_false, if_false, Except.ok.injEq] at h
        subst h
        exact ⟨rfl, rfl, show (ADDRESS ||| WRITE_FLAG) % 2 = 1 by decide⟩
      · simp [write, hl] at h

/-- Witness for C4's amended theorem at a concrete transaction. -/
theorem c4_witness :
    (0x61 : Nat) = ADDRESS ||| WRITE_FLAG ∧ (0x61 : Nat) % 2 = 1 := by
  have h := c4_address_amended.1 Command.SoftReset none (0x61, [0xD3, 0x04]) (by decide)
  exact ⟨h.1, h.2.2⟩

/-- C5: constructing an `AmbientPressure` from a u16 fails with the
distinct use-default-pressure error at 0, succeeds exactly on 700..=1400,
and fails for every other nonzero input with the out-of-range error
carrying parameter "Ambient pressure compensation", bounds 700 and 1400,
and unit mBar. -/
theorem c5_ambient_pressure (p : Nat) (_hp : p < 65536) :
    AmbientPressure.try_from 0 = .error .UseDefaultPressure ∧
    ((∃ a, AmbientPressure.try_from p = .ok a) ↔ 700 ≤ p ∧ p ≤ 1400) ∧
    (700 ≤ p → p ≤ 1400 → AmbientPressure.try_from p = .ok ⟨p⟩) ∧
    (p ≠ 0 → p < 700 ∨ 1400 < p →
      AmbientPressure.try_from p = .error
        (.ValueOutOfRange "Ambient pressure compensation" 700 1400 "mBar")) := by
  refine ⟨by decide, ?_, ?_, ?_⟩
  · constructor
    · rintro ⟨a, ha⟩
      by_cases h0 : p = 0
      · simp [AmbientPressure.try_from, h0] at ha
      by_cases hr : p < 700 ∨ 1400 < p
      · simp [AmbientPressure.try_from, h0, hr] at ha
      · omega
    · rintro ⟨h1, h2⟩
      have h0 : ¬p = 0 := by omega
      have hr : ¬(p < 700 ∨ 1400 < p) := by omega
      exact ⟨⟨p⟩, by simp [AmbientPressure.try_from, h0, hr]⟩
  · intro h1 h2
    have h0 : ¬p = 0 := by omega
    have hr : ¬(p < 700 ∨ 1400 < p) := by omega
    simp [AmbientPressure.try_from, h0, hr]
  · intro h0 hr
    simp [AmbientPressure.try_from, h0, hr]

/-- Witness for C5 at the boundary inputs 0, 700, 1400, 699, 1401. -/
theorem c5_witness :
    AmbientPressure.try_from 0 = .error .UseDefaultPressure ∧
    AmbientPressure.try_from 700 = .ok ⟨700⟩ ∧
    AmbientPressure.try_from 1400 = .ok ⟨1400⟩ ∧
    AmbientPressure.try_from 699 = .error
      (.ValueOutOfRange "Ambient pressure compensation" 700 1400 "mBar") ∧
    AmbientPressure.try_from 1401 = .error
      (.ValueOutOfRange "Ambient pressure compensation" 700 1400 "mBar") := by
  exact ⟨(c5_ambient_pressure 0 (by decide)).1,
    (c5_ambient_pressure 700 (by decide)).2.2.1 (by decide) (by decide),
    (c5_ambient_pressure 1400 (by decide)).2.2.1 (by decide) (by decide),
    (c5_ambient_pressure 699 (by decide)).2.2.2 (by decide) (by decide),
    (c5_ambient_pressure 1401 (by decide)).2.2.2 (by decide) (by decide)⟩

/-- A 3-byte buffer whose third byte matches the CRC-8 of its first two
bytes passes the shared check. -/
theorem check_deserialization_word3 {h l c : Nat} (hc : crc8_matches [h, l] c = true) :
    check_deserialization [h, l, c] 3 = some (.ok ()) := by
  simp [check_deserialization, checkWords, hc]

/-- Deserializing a single valid word into a `MeasurementInterval` reads
its big-endian u16. -/
theorem mi_try_from_bytes_word (h l : Nat) :
    MeasurementInterval.try_from_bytes [h, l, compute_crc8 [h, l]] =
      some (.ok ⟨readU16 h l⟩) := by
  simp [MeasurementInterval.try_from_bytes, check_deserialization_word]

/-- Deserializing a single valid word into a `ForcedRecalibrationValue`
reads its big-endian u16. -/
theorem frc_try_from_bytes_word (h l : Nat) :
    ForcedRecalibrationValue.try_from_bytes [h, l, compute_crc8 [h, l]] =
      some (.ok ⟨readU16 h l⟩) := by
  simp [ForcedRecalibrationValue.try_from_bytes, check_deserialization_word]

/-- Deserializing a single valid word into a `TemperatureOffset` reads
its big-endian u16. -/
theorem to_try_from_bytes_word (h l : Nat) :
    TemperatureOffset.try_from_bytes [h, l, compute_crc8 [h, l]] =
      some (.ok ⟨readU16 h l⟩) := by
  simp [TemperatureOffset.try_from_bytes, check_deserialization_word]

/-- Deserializing a single valid word into an `AltitudeCompensation`
reads its big-endian u16. -/
theorem ac_try_from_bytes_word (h l : Nat) :
    AltitudeCompensation.try_from_bytes [h, l, compute_crc8 [h, l]] =
      some (.ok ⟨readU16 h l⟩) := by
  simp [AltitudeCompensation.try_from_bytes, check_deserialization_word]

/-- C3: for every Domain Value Type with both a 2-byte big-endian
serialization and a buffer deserialization, appending the CRC-8 of the
serialized bytes and deserializing yields the original value: stated for
constructible (valid) `MeasurementInterval` and `ForcedRecalibrationValue`
values, for every `TemperatureOffset` and `AltitudeCompensation` holding
a u16, and for both `AutomaticSelfCalibration` variants. -/
theorem c3_roundtrip :
    (∀ (v : Nat) (m : MeasurementInterval), MeasurementInterval.try_from v = .ok m →
      MeasurementInterval.try_from_bytes
        (m.to_be_bytes ++ [compute_crc8 m.to_be_bytes]) = some (.ok m)) ∧
    (∀ (v : Nat) (f : ForcedRecalibrationValue),
      ForcedRecalibrationValue.try_from v = .ok f →
      ForcedRecalibrationValue.try_from_bytes
        (f.to_be_bytes ++ [compute_crc8 f.to_be_bytes]) = some (.ok f)) ∧
    (∀ t : TemperatureOffset, t.val < 65536 →
      TemperatureOffset.try_from_bytes
        (t.to_be_bytes ++ [compute_crc8 t.to_be_bytes]) = some (.ok t)) ∧
    (∀ a : AltitudeCompensation, a.val < 65536 →
      AltitudeCompensation.try_from_bytes
        (a.to_be_bytes ++ [compute_crc8 a.to_be_bytes]) = some (.ok a)) ∧
    (∀ s : AutomaticSelfCalibration,
      AutomaticSelfCalibration.try_from_bytes
        (s.to_be_bytes ++ [compute_crc8 s.to_be_bytes]) = some (.ok s)) := by
  refine ⟨?_, ?_, ?_, ?_, ?_⟩
  · intro v m hm
    unfold MeasurementInterval.try_from at hm
    split at hm
    · simp at hm
    next hr =>
    cases hm
    have hv : v < 65536 := by omega
    have hb : MeasurementInterval.to_be_bytes ⟨v⟩ ++
        [compute_crc8 (MeasurementInterval.to_be_bytes ⟨v⟩)] =
        [v / 256 % 256, v % 256, compute_crc8 [v / 256 % 256, v % 256]] := rfl
    rw [hb, mi_try_from_bytes_word, u16_roundtrip v hv]
  · intro v f hf
    unfold ForcedRecalibrationValue.try_from at hf
    split at hf
    · simp at hf
    next hr =>
    cases hf
    have hv : v < 65536 := by omega
    have hb : ForcedRecalibrationValue.to_be_bytes ⟨v⟩ ++
        [compute_crc8 (ForcedRecalibrationValue.to_be_bytes ⟨v⟩)] =
        [v / 256 % 256, v % 256, compute_crc8 [v / 256 % 256, v % 256]] := rfl
    rw [hb, frc_try_from_bytes_word, u16_roundtrip v hv]
  · rintro ⟨v⟩ hv
    have hb : TemperatureOffset.to_be_bytes ⟨v⟩ ++
        [compute_crc8 (TemperatureOffset.to_be_bytes ⟨v⟩)] =
        [v / 256 % 256, v % 256, compute_crc8 [v / 256 % 256, v % 256]] := rfl
    rw [hb, to_try_from_bytes_word, u16_roundtrip v hv]
  · rintro ⟨v⟩ hv
    have hb : AltitudeCompensation.to_be_bytes ⟨v⟩ ++
        [compute_crc8 (AltitudeCompensation.to_be_bytes ⟨v⟩)] =
        [v / 256 % 256, v % 256, compute_crc8 [v / 256 % 256, v % 256]] := rfl
    rw [hb, ac_try_from_bytes_word, u16_roundtrip v hv]
  · intro s
    cases s <;> decide

/-- Witness for C3 at concrete valid values of each type. -/
theorem c3_witness :
    MeasurementInterval.try_from_bytes [0x00, 0x02, 0xE3] = some (.ok ⟨2⟩) ∧
    ForcedRecalibrationValue.try_from_bytes [0x01, 0xC2, 0x50] = some (.ok ⟨450⟩) ∧
    TemperatureOffset.try_from_bytes [0x01, 0xF4, 0x33] = some (.ok ⟨500⟩) ∧
    AltitudeCompensation.try_from_bytes [0x03, 0xE8, 0xD4] = some (.ok ⟨1000⟩) ∧
    AutomaticSelfCalibration.try_from_bytes [0x00, 0x00, 0x81] =
      some (.ok .Inactive) := by
  refine ⟨?_, ?_, ?_, ?_, ?_⟩
  · exact ((c3_roundtrip.1 2 ⟨2⟩ (by decide)).symm.trans (by decide)).symm
  · exact ((c3_roundtrip.2.1 450 ⟨450⟩ (by decide)).symm.trans (by decide)).symm
  · exact ((c3_roundtrip.2.2.1 ⟨500⟩ (by decide)).symm.trans (by decide)).symm
  · exact ((c3_roundtrip.2.2.2.1 ⟨1000⟩ (by decide)).symm.trans (by decide)).symm
  · exact ((c3_roundtrip.2.2.2.2 .Inactive).symm.trans (by decide)).symm

/-- C6: for every CRC-valid 3-byte buffer, `MeasurementInterval` and
`ForcedRecalibrationValue` deserialization succeed with the raw 16-bit
value, whatever it is: received device data undergoes no bounds
re-validation on the receive path. -/
theorem c6_receive_no_bounds_check (a b c : Nat) (_ha : a < 256) (_hb : b < 256)
    (hc : crc8_matches [a, b] c = true) :
    MeasurementInterval.try_from_bytes [a, b, c] = some (.ok ⟨readU16 a b⟩) ∧
    ForcedRecalibrationValue.try_from_bytes [a, b, c] = some (.ok ⟨readU16 a b⟩) := by
  have h3 := check_deserialization_word3 hc
  constructor
  · simp [MeasurementInterval.try_from_bytes, h3]
  · simp [ForcedRecalibrationValue.try_from_bytes, h3]

/-- Witness for C6 at the out-of-range word 0xFFFF (65535 exceeds both
the 1800 s and the 2000 ppm construction bounds, yet both
deserializations accept it). -/
theorem c6_witness :
    MeasurementInterval.try_from_bytes [0xFF, 0xFF, compute_crc8 [0xFF, 0xFF]] =
      some (.ok ⟨65535⟩) ∧
    ForcedRecalibrationValue.try_from_bytes [0xFF, 0xFF, compute_crc8 [0xFF, 0xFF]] =
      some (.ok ⟨65535⟩) ∧
    MeasurementInterval.try_from 65535 =
      .error (.ValueOutOfRange "Measurement interval" 2 1800 "s") ∧
    ForcedRecalibrationValue.try_from 65535 =
      .error (.ValueOutOfRange "Forced recalibration value" 400 2000 "ppm") := by
  have h := c6_receive_no_bounds_check 0xFF 0xFF (compute_crc8 [0xFF, 0xFF])
    (by decide) (by decide) (by decide)
  exact ⟨h.1.symm.trans (by decide) |>.symm, h.2.symm.trans (by decide) |>.symm,
    by decide, by decide⟩

/-- C8: for every CRC-valid 3-byte buffer, the discrete deserializations
map a received byte value of 1 to Active / Ready and 0 to
Inactive / NotReady, and any other received byte fails with the
unexpected-value-received error carrying the parameter name and the
actual byte. -/
theorem c8_discrete_fields (a b c : Nat) (_hb : b < 256)
    (hc : crc8_matches [a, b] c = true) :
    (b = 1 → AutomaticSelfCalibration.try_from_bytes [a, b, c] = some (.ok .Active) ∧
      DataStatus.try_from_bytes [a, b, c] = some (.ok .Ready)) ∧
    (b = 0 → AutomaticSelfCalibration.try_from_bytes [a, b, c] = some (.ok .Inactive) ∧
      DataStatus.try_from_bytes [a, b, c] = some (.ok .NotReady)) ∧
    (b ≠ 0 → b ≠ 1 →
      AutomaticSelfCalibration.try_from_bytes [a, b, c] =
        some (.error (.UnexpectedValueReceived "Automatic self-calibration" "0 or 1" b)) ∧
      DataStatus.try_from_bytes [a, b, c] =
        some (.error (.UnexpectedValueReceived "Data ready status" "0 or 1" b))) := by
  have h3 := check_deserialization_word3 hc
  refine ⟨?_, ?_, ?_⟩
  · rintro rfl
    constructor
    · simp [AutomaticSelfCalibration.try_from_bytes, h3]
    · simp [DataStatus.try_from_bytes, h3]
  · rintro rfl
    constructor
    · simp [AutomaticSelfCalibration.try_from_bytes, h3]
    · simp [DataStatus.try_from_bytes, h3]
  · intro h0 h1
    match b, h0, h1 with
    | n + 2, _, _ =>
      constructor
      · simp [AutomaticSelfCalibration.try_from_bytes, h3]
      · simp [DataStatus.try_from_bytes, h3]

/-- Witness for C8 at the driver's own sample words (second byte 1, 0
and 2). -/
theorem c8_witness :
    AutomaticSelfCalibration.try_from_bytes [0x00, 0x01, 0xB0] = some (.ok .Active) ∧
    AutomaticSelfCalibration.try_from_bytes [0x00, 0x00, 0x81] = some (.ok .Inactive) ∧
    AutomaticSelfCalibration.try_from_bytes [0x00, 0x02, 0xE3] =
      some (.error (.UnexpectedValueReceived "Automatic self-calibration" "0 or 1" 2)) ∧
    DataStatus.try_from_bytes [0x00, 0x02, 0xE3] =
      some (.error (.UnexpectedValueReceived "Data ready status" "0 or 1" 2)) := by
  refine ⟨?_, ?_, ?_, ?_⟩
  · exact ((c8_discrete_fields 0x00 0x01 0xB0 (by decide) (by decide)).1 rfl).1
  · exact ((c8_discrete_fields 0x00 0x00 0x81 (by decide) (by decide)).2.1 rfl).1
  · exact ((c8_discrete_fields 0x00 0x02 0xE3 (by decide) (by decide)).2.2
      (by decide) (by decide)).1
  · exact ((c8_discrete_fields 0x00 0x02 0xE3 (by decide) (by decide)).2.2
      (by decide) (by decide)).2

/-- C9: the discrete deserializations inspect only the second data byte:
the CRC-valid buffer with data bytes [0x01, 0x00] — 16-bit word value
256, neither 0 nor 1 — decodes to Inactive resp. NotReady instead of
failing with the unexpected-value error, because the high data byte is
ignored. -/
theorem c9_high_byte_ignored :
    AutomaticSelfCalibration.try_from_bytes [0x01, 0x00, compute_crc8 [0x01, 0x00]] =
      some (.ok .Inactive) ∧
    DataStatus.try_from_bytes [0x01, 0x00, compute_crc8 [0x01, 0x00]] =
      some (.ok .NotReady) ∧
    readU16 0x01 0x00 = 256 ∧ (256 : Nat) ≠ 0 ∧ (256 : Nat) ≠ 1 := by
  decide

/-- C7: for every 18-byte buffer all of whose six words pass CRC
verification, `Measurement` decoding assembles the three float bit
patterns from the data bytes at offsets 0,1,3,4 and 6,7,9,10 and
12,13,15,16, skipping every checksum byte; on the spec's example buffer
this gives bit patterns 0x43DB8C2E, 0x41D9E7FF, 0x42433A1B, whose exact
IEEE-754 values lie within 1/1000 of 439.095, 27.238 and 48.807. -/
theorem c7_measurement_decode :
    (∀ b0 b1 b2 b3 b4 b5 b6 b7 b8 b9 b10 b11 b12 b13 b14 b15 b16 b17 : Nat,
      wordsValid [b0, b1, b2, b3, b4, b5, b6, b7, b8, b9, b10, b11,
        b12, b13, b14, b15, b16, b17] = true →
      Measurement.try_from_bytes [b0, b1, b2, b3, b4, b5, b6, b7, b8, b9, b10, b11,
        b12, b13, b14, b15, b16, b17] =
        some (.ok ⟨readU32 b0 b1 b3 b4, readU32 b6 b7 b9 b10,
          readU32 b12 b13 b15 b16⟩)) ∧
    Measurement.try_from_bytes [0x43, 0xDB, 0xCB, 0x8C, 0x2E, 0x8F, 0x41, 0xD9, 0x70,
      0xE7, 0xFF, 0xF5, 0x42, 0x43, 0xBF, 0x3A, 0x1B, 0x74] =
      some (.ok ⟨0x43DB8C2E, 0x41D9E7FF, 0x42433A1B⟩) ∧
    |bitsToRat 0x43DB8C2E - 439095 / 1000| < 1 / 1000 ∧
    |bitsToRat 0x41D9E7FF - 27238 / 1000| < 1 / 1000 ∧
    |bitsToRat 0x42433A1B - 48807 / 1000| < 1 / 1000 := by
  refine ⟨?_, by decide, ?_, ?_, ?_⟩
  · intro b0 b1 b2 b3 b4 b5 b6 b7 b8 b9 b10 b11 b12 b13 b14 b15 b16 b17 hw
    have hcw := checkWords_eq [b0, b1, b2, b3, b4, b5, b6, b7, b8, b9, b10, b11,
      b12, b13, b14, b15, b16, b17] (by simp)
    rw [hw] at hcw
    simp [Measurement.try_from_bytes, check_deserialization, hcw]
  · rw [show bitsToRat 0x43DB8C2E = 7194135 / 16384 by norm_num [bitsToRat]]
    rw [abs_sub_lt_iff]
    norm_num
  · rw [show bitsToRat 0x41D9E7FF = 14280703 / 524288 by norm_num [bitsToRat]]
    rw [abs_sub_lt_iff]
    norm_num
  · rw [show bitsToRat 0x42433A1B = 12794395 / 262144 by norm_num [bitsToRat]]
    rw [abs_sub_lt_iff]
    norm_num

/-- Witness for C7: the universal offset theorem applied at the spec's
example buffer agrees with the direct evaluation. -/
theorem c7_witness :
    Measurement.try_from_bytes [0x43, 0xDB, 0xCB, 0x8C, 0x2E, 0x8F, 0x41, 0xD9, 0x70,
      0xE7, 0xFF, 0xF5, 0x42, 0x43, 0xBF, 0x3A, 0x1B, 0x74] =
      some (.ok ⟨0x43DB8C2E, 0x41D9E7FF, 0x42433A1B⟩) := by
  have h := c7_measurement_decode.1 0x43 0xDB 0xCB 0x8C 0x2E 0x8F 0x41 0xD9 0x70
    0xE7 0xFF 0xF5 0x42 0x43 0xBF 0x3A 0x1B 0x74 (by decide)
  exact h.trans (by decide)

/-- A list has an element at every index below its length. -/
theorem get?_isSome_of_lt (l : List Nat) (i : Nat) (h : i < l.length) :
    ∃ x, l[i]? = some x :=
  ⟨l[i], List.getElem?_eq_getElem h⟩

/-- For expected lengths that are multiples of 3, the shared check never
panics. -/
theorem check_deserialization_isSome (data : List Nat) (n : Nat) (hn : n % 3 = 0) :
    (check_deserialization data n).isSome := by
  by_cases hl : data.length = n
  · have h3 : data.length % 3 = 0 := by omega
    have hw := checkWords_eq data h3
    cases hv : wordsValid data <;> simp [check_deserialization, hl, hw, hv]
  · simp [check_deserialization, hl]

/-- `MeasurementInterval` buffer deserialization is total. -/
theorem mi_total (data : List Nat) :
    (MeasurementInterval.try_from_bytes data).isSome := by
  unfold MeasurementInterval.try_from_bytes
  have hs := check_deserialization_isSome data 3 (by decide)
  cases hh : check_deserialization data 3 with
  | none => simp [hh] at hs
  | some r =>
      cases r with
      | error e => simp
      | ok u =>
          cases u
          have hl : data.length = 3 := check_deserialization_ok_length hh
          obtain ⟨x0, h0⟩ := get?_isSome_of_lt data 0 (by omega)
          obtain ⟨x1, h1⟩ := get?_isSome_of_lt data 1 (by omega)
          simp [h0, h1]

/-- `ForcedRecalibrationValue` buffer deserialization is total. -/
theorem frc_total (data : List Nat) :
    (ForcedRecalibrationValue.try_from_bytes data).isSome := by
  unfold ForcedRecalibrationValue.try_from_bytes
  have hs := check_deserialization_isSome data 3 (by decide)
  cases hh : check_deserialization data 3 with
  | none => simp [hh] at hs
  | some r =>
      cases r with
      | error e => simp
      | ok u =>
          cases u
          have hl : data.length = 3 := check_deserialization_ok_length hh
          obtain ⟨x0, h0⟩ := get?_isSome_of_lt data 0 (by omega)
          obtain ⟨x1, h1⟩ := get?_isSome_of_lt data 1 (by omega)
          simp [h0, h1]

/-- `TemperatureOffset` buffer deserialization is total. -/
theorem to_total (data : List Nat) :
    (TemperatureOffset.try_from_bytes data).isSome := by
  unfold TemperatureOffset.try_from_bytes
  have hs := check_deserialization_isSome data 3 (by decide)
  cases hh : check_deserialization data 3 with
  | none => simp [hh] at hs
  | some r =>
      cases r with
      | error e => simp
      | ok u =>
          cases u
          have hl : data.length = 3 := check_deserialization_ok_length hh
          obtain ⟨x0, h0⟩ := get?_isSome_of_lt data 0 (by omega)
          obtain ⟨x1, h1⟩ := get?_isSome_of_lt data 1 (by omega)
          simp [h0, h1]

/-- `AltitudeCompensation` buffer deserialization is total. -/
theorem ac_total (data : List Nat) :
    (AltitudeCompensation.try_from_bytes data).isSome := by
  unfold AltitudeCompensation.try_from_bytes
  have hs := check_deserialization_isSome data 3 (by decide)
  cases hh : check_deserialization data 3 with
  | none => simp [hh] at hs
  | some r =>
      cases r with
      | error e => simp
      | ok u =>
          cases u
          have hl : data.length = 3 := check_deserialization_ok_length hh
          obtain ⟨x0, h0⟩ := get?_isSome_of_lt data 0 (by omega)
          obtain ⟨x1, h1⟩ := get?_isSome_of_lt data 1 (by omega)
          simp [h0, h1]

/-- `AutomaticSelfCalibration` buffer deserialization is total. -/
theorem asc_total (data : List Nat) :
    (AutomaticSelfCalibration.try_from_bytes data).isSome := by
  unfold AutomaticSelfCalibration.try_from_bytes
  have hs := check_deserialization_isSome data 3 (by decide)
  cases hh : check_deserialization data 3 with
  | none => simp [hh] at hs
  | some r =>
      cases r with
      | error e => simp
      | ok u =>
          cases u
          have hl : data.length = 3 := check_deserialization_ok_length hh
          obtain ⟨x1, h1⟩ := get?_isSome_of_lt data 1 (by omega)
          rcases x1 with _ | _ | n <;> simp [h1]

/-- `DataStatus` buffer deserialization is total. -/
theorem ds_total (data : List Nat) :
    (DataStatus.try_from_bytes data).isSome := by
  unfold DataStatus.try_from_bytes
  have hs := check_deserialization_isSome data 3 (by decide)
  cases hh : check_deserialization data 3 with
  | none => simp [hh] at hs
  | some r =>
      cases r with
      | error e => simp
      | ok u =>
          cases u
          have hl : data.length = 3 := check_deserialization_ok_length hh
          obtain ⟨x1, h1⟩ := get?_isSome_of_lt data 1 (by omega)
          rcases x1 with _ | _ | n <;> simp [h1]

/-- `FirmwareVersion` buffer deserialization is total. -/
theorem fw_total (data : List Nat) :
    (FirmwareVersion.try_from_bytes data).isSome := by
  unfold FirmwareVersion.try_from_bytes
  have hs := check_deserialization_isSome data 3 (by decide)
  cases hh : check_deserialization data 3 with
  | none => simp [hh] at hs
  | some r =>
      cases r with
      | error e => simp
      | ok u =>
          cases u
          have hl : data.length = 3 := check_deserialization_ok_length hh
          obtain ⟨x0, h0⟩ := get?_isSome_of_lt data 0 (by omega)
          obtain ⟨x1, h1⟩ := get?_isSome_of_lt data 1 (by omega)
          simp [h0, h1]

/-- `Measurement` buffer deserialization is total. -/
theorem meas_total (data : List Nat) :
    (Measurement.try_from_bytes data).isSome := by
  unfold Measurement.try_from_bytes
  have hs := check_deserialization_isSome data 18 (by decide)
  cases hh : check_deserialization data 18 with
  | none => simp [hh] at hs
  | some r =>
      cases r with
      | error e => simp
      | ok u =>
          cases u
          have hl : data.length = 18 := check_deserialization_ok_length hh
          obtain ⟨x0, h0⟩ := get?_isSome_of_lt data 0 (by omega)
          obtain ⟨x1, h1⟩ := get?_isSome_of_lt data 1 (by omega)
          obtain ⟨x3, h3⟩ := get?_isSome_of_lt data 3 (by omega)
          obtain ⟨x4, h4⟩ := get?_isSome_of_lt data 4 (by omega)
          obtain ⟨x6, h6⟩ := get?_isSome_of_lt data 6 (by omega)
          obtain ⟨x7, h7⟩ := get?_isSome_of_lt data 7 (by omega)
          obtain ⟨x9, h9⟩ := get?_isSome_of_lt data 9 (by omega)
          obtain ⟨x10, h10⟩ := get?_isSome_of_lt data 10 (by omega)
          obtain ⟨x12, h12⟩ := get?_isSome_of_lt data 12 (by omega)
          obtain ⟨x13, h13⟩ := get?_isSome_of_lt data 13 (by omega)
          obtain ⟨x15, h15⟩ := get?_isSome_of_lt data 15 (by omega)
          obtain ⟨x16, h16⟩ := get?_isSome_of_lt data 16 (by omega)
          simp [h0, h1, h3, h4, h6, h7, h9, h10, h12, h13, h15, h16]

/-- C10: every public buffer deserialization is total on every input
byte buffer of every length: it returns a value or a `DataError`, never
the panic outcome `none`, because every byte index used after the shared
check is below the already-enforced expected length (3 or 18, both
multiples of 3, so every 3-byte chunk is complete). -/
theorem c10_deserialization_total (data : List Nat) :
    (MeasurementInterval.try_from_bytes data).isSome ∧
    (ForcedRecalibrationValue.try_from_bytes data).isSome ∧
    (TemperatureOffset.try_from_bytes data).isSome ∧
    (AltitudeCompensation.try_from_bytes data).isSome ∧
    (AutomaticSelfCalibration.try_from_bytes data).isSome ∧
    (DataStatus.try_from_bytes data).isSome ∧
    (FirmwareVersion.try_from_bytes data).isSome ∧
    (Measurement.try_from_bytes data).isSome :=
  ⟨mi_total data, frc_total data, to_total data, ac_total data, asc_total data,
    ds_total data, fw_total data, meas_total data⟩

end Scd30
